import Mathlib

/-!
Verification of the greenlight feature-detection and baseline-evaluation core.

This file shallowly embeds the data model and the operations of the
repository's core (baseline engine, configuration resolver, suppression
resolver, result aggregation) and proves properties about them.

Modelling conventions:
* TypeScript string-union values (`'widely' | 'newly' | 'limited'`,
  `'error' | 'warning' | 'info' | 'ignore'`, target years) are runtime
  strings in JS, and are embedded as Lean `String`s compared literally,
  exactly as the source compares them with `===`.
* Browser versions are compared in the source after `parseFloat`; the
  embedded support tables store the parsed rational directly (e.g. the
  source string "15.4" is stored as the rational 15.4).
* The external `browserslist` library (which resolves a query list such as
  ["chrome >= 105"] to concrete browser/version pairs) is not part of the
  repository; every function that consults it takes the resolution as an
  explicit `resolve : List String → List (String × ℚ)` argument, modelling
  `browserslist(query)` followed by the source's `browser.split(' ')` /
  `parseFloat(version)` post-processing.
* JS `parseInt` is modelled by `jsParseInt` (`none` plays the role of `NaN`;
  every numeric comparison against `NaN` is false, as in JS).
* `name`/`description` display strings of catalog entries are omitted: no
  operation of the core reads them.
-/

namespace Greenlight

set_option maxRecDepth 8000

/-! ## JS string primitives

The suppression resolver and the API tables use `String.prototype.includes`,
`String.prototype.trim` and `split`.  They are modelled here on `List Char`
so that every concrete instance reduces by `decide`. -/

/-- `listStartsWith needle hay`: `needle` is a prefix of `hay`. -/
def listStartsWith : List Char → List Char → Bool
  | [], _ => true
  | _ :: _, [] => false
  | a :: as, b :: bs => a = b && listStartsWith as bs

/-- `charsContains needle hay`: `needle` occurs as a contiguous substring. -/
def charsContains (needle : List Char) : List Char → Bool
  | [] => listStartsWith needle []
  | c :: rest => listStartsWith needle (c :: rest) || charsContains needle rest

/-- Model of JS `hay.includes(needle)`. -/
def strIncludes (needle hay : String) : Bool :=
  charsContains needle.data hay.data

/-- JS whitespace test used by `trim` (the characters that occur in the
repository's inputs). -/
def isJsWs (c : Char) : Bool :=
  c = ' ' || c = '\t' || c = '\r' || c = '\n'

/-- Model of JS `s.trim()`. -/
def strTrim (s : String) : String :=
  ⟨((s.data.dropWhile isJsWs).reverse.dropWhile isJsWs).reverse⟩

/-- Split a character list at a separator character; always non-empty. -/
def splitOnChar (sep : Char) : List Char → List (List Char)
  | [] => [[]]
  | c :: rest =>
    let r := splitOnChar sep rest
    if c = sep then [] :: r
    else
      match r with
      | [] => [[c]]
      | h :: t => (c :: h) :: t

/-- Model of JS `content.split('\n')`. -/
def splitLines (content : String) : List String :=
  (splitOnChar '\n' content.data).map (fun cs => ⟨cs⟩)

/-- Model of JS `s.split(sep)[0]` for a single-character separator. -/
def splitHead (sep : Char) (s : String) : String :=
  ⟨(splitOnChar sep s.data).headD []⟩

/-- Model of JS `parseInt`: parses a leading run of decimal digits;
`none` models `NaN` (no leading digit). -/
def jsParseInt (s : String) : Option Nat :=
  let ds := s.data.takeWhile (fun c => c.isDigit)
  if ds.isEmpty then none
  else some (ds.foldl (fun n c => 10 * n + (c.toNat - 48)) 0)

/-- JS `a <= b` where either side may be `NaN` (`none`): any comparison
with `NaN` is false. -/
def jsLe : Option Nat → Option Nat → Bool
  | some a, some b => a ≤ b
  | _, _ => false

/-! ## Data model -/

/-- Catalog entry of `baselineFeatures`
(publishing/github-action/src/core/data/baseline-features.ts);
`description` is display-only and omitted. -/
structure BaselineData where
  status : String
  since : Option String := none
  deriving DecidableEq

/-- Entry of `webFeaturesData`
(publishing/github-action/src/core/data/web-features-data.ts).
`browser_support` values are stored as the `parseFloat` of the source
strings.  `name`/`description` are display-only and omitted. -/
structure WebFeature where
  id : String
  baseline : BaselineData
  browser_support : List (String × ℚ)
  mdn_url : Option String := none
  deriving DecidableEq

/-- `CompatibilityFix` (core/types.ts). -/
structure CompatibilityFix where
  type : String
  description : String
  code : Option String := none
  url : Option String := none
  deriving DecidableEq

/-- `CompatibilityResult` (core/types.ts): the diagnostic record. -/
structure CompatibilityResult where
  file : String
  line : Nat
  column : Nat
  feature : String
  message : String
  severity : String
  baseline : String
  browserSupport : List String
  fixes : Option (List CompatibilityFix) := none
  deriving DecidableEq

/-- `BaselineTarget` (core/baseline-engine.ts). -/
structure BaselineTarget where
  year : String
  customBrowserslist : Option (List String) := none
  deriving DecidableEq

/-! ## Feature catalog (static data)

Transcribed from publishing/github-action/src/core/data/baseline-features.ts. -/

def baselineFeatures : List (String × BaselineData) :=
  [ ("fetch", { status := "widely", since := some "2017-03" }),
    ("promises", { status := "widely", since := some "2016-03" }),
    ("arrow-functions", { status := "widely", since := some "2016-03" }),
    ("let-const", { status := "widely", since := some "2016-03" }),
    ("template-literals", { status := "widely", since := some "2016-03" }),
    ("optional-chaining", { status := "newly", since := some "2022-03" }),
    ("nullish-coalescing", { status := "newly", since := some "2022-03" }),
    ("array-flat", { status := "newly", since := some "2022-03" }),
    ("array-flatmap", { status := "newly", since := some "2022-03" }),
    ("object-fromentries", { status := "newly", since := some "2022-03" }),
    ("string-matchall", { status := "newly", since := some "2022-03" }),
    ("intersection-observer", { status := "newly", since := some "2022-03" }),
    ("resize-observer", { status := "newly", since := some "2023-03" }),
    ("clipboard-api", { status := "limited" }),
    ("file-system-access", { status := "limited" }),
    ("web-share", { status := "limited" }),
    ("view-transitions", { status := "limited" }),
    ("web-locks", { status := "limited" }),
    ("broadcast-channel", { status := "newly", since := some "2022-03" }),
    ("css-grid", { status := "widely", since := some "2020-03" }),
    ("css-flexbox", { status := "widely", since := some "2017-03" }),
    ("css-variables", { status := "widely", since := some "2020-03" }),
    ("css-has-selector", { status := "newly", since := some "2023-12" }),
    ("css-focus-visible", { status := "newly", since := some "2023-03" }),
    ("css-focus-within", { status := "newly", since := some "2022-03" }),
    ("css-is-selector", { status := "newly", since := some "2023-03" }),
    ("css-where-selector", { status := "newly", since := some "2023-03" }),
    ("css-container-queries", { status := "newly", since := some "2023-02" }),
    ("css-aspect-ratio", { status := "newly", since := some "2022-03" }),
    ("css-gap", { status := "newly", since := some "2022-03" }),
    ("css-backdrop-filter", { status := "newly", since := some "2022-03" }),
    ("css-scroll-behavior", { status := "newly", since := some "2022-03" }),
    ("css-accent-color", { status := "newly", since := some "2022-03" }),
    ("css-oklch-color", { status := "limited" }),
    ("css-oklab-color", { status := "limited" }),
    ("css-color-mix", { status := "limited" }),
    ("css-relative-colors", { status := "limited" }),
    ("css-subgrid", { status := "limited" }),
    ("css-cascade-layers", { status := "limited" }),
    ("dialog-element", { status := "newly", since := some "2022-03" }),
    ("details-element", { status := "widely", since := some "2020-03" }),
    ("bigint", { status := "newly", since := some "2022-03" }),
    ("dynamic-import", { status := "newly", since := some "2022-03" }),
    ("top-level-await", { status := "newly", since := some "2023-03" }),
    ("private-fields", { status := "newly", since := some "2022-03" }),
    ("array-at", { status := "newly", since := some "2022-03" }) ]

/-- `baselineFeatures[featureId]` lookup. -/
def baselineFeaturesGet (featureId : String) : Option BaselineData :=
  baselineFeatures.lookup featureId

/-! Transcribed from
publishing/github-action/src/core/data/web-features-data.ts. -/

def webFeaturesData : List (String × WebFeature) :=
  [ ("css-has-selector",
     { id := "css-has-selector",
       baseline := { status := "newly", since := some "2023-12" },
       browser_support := [("chrome", 105), ("firefox", 121), ("safari", 15.4)],
       mdn_url := some "https://developer.mozilla.org/en-US/docs/Web/CSS/:has" }),
    ("css-focus-visible",
     { id := "css-focus-visible",
       baseline := { status := "newly", since := some "2023-03" },
       browser_support := [("chrome", 86), ("firefox", 85), ("safari", 15.4)],
       mdn_url := some "https://developer.mozilla.org/en-US/docs/Web/CSS/:focus-visible" }),
    ("clipboard-api",
     { id := "clipboard-api",
       baseline := { status := "limited" },
       browser_support := [("chrome", 76), ("firefox", 127), ("safari", 13.1)],
       mdn_url := some "https://developer.mozilla.org/en-US/docs/Web/API/Clipboard_API" }),
    ("file-system-access",
     { id := "file-system-access",
       baseline := { status := "limited" },
       browser_support := [("chrome", 86), ("edge", 86)],
       mdn_url := some "https://developer.mozilla.org/en-US/docs/Web/API/File_System_Access_API" }),
    ("view-transitions",
     { id := "view-transitions",
       baseline := { status := "limited" },
       browser_support := [("chrome", 111)],
       mdn_url := some "https://developer.mozilla.org/en-US/docs/Web/API/View_Transitions_API" }),
    ("web-share",
     { id := "web-share",
       baseline := { status := "limited" },
       browser_support := [("chrome", 89), ("safari", 14)],
       mdn_url := some "https://developer.mozilla.org/en-US/docs/Web/API/Web_Share_API" }),
    ("dialog-element",
     { id := "dialog-element",
       baseline := { status := "newly", since := some "2022-03" },
       browser_support := [("chrome", 37), ("firefox", 98), ("safari", 15.4)],
       mdn_url := some "https://developer.mozilla.org/en-US/docs/Web/HTML/Element/dialog" }),
    ("css-container-queries",
     { id := "css-container-queries",
       baseline := { status := "newly", since := some "2023-02" },
       browser_support := [("chrome", 105), ("firefox", 110), ("safari", 16)],
       mdn_url := some "https://developer.mozilla.org/en-US/docs/Web/CSS/CSS_Container_Queries" }),
    ("css-oklch-color",
     { id := "css-oklch-color",
       baseline := { status := "newly", since := some "2023-08" },
       browser_support := [("chrome", 111), ("firefox", 113), ("safari", 15.4)],
       mdn_url := some "https://developer.mozilla.org/en-US/docs/Web/CSS/color_value/oklch" }),
    ("css-color-mix",
     { id := "css-color-mix",
       baseline := { status := "newly", since := some "2023-06" },
       browser_support := [("chrome", 111), ("firefox", 113), ("safari", 16.2)],
       mdn_url := some "https://developer.mozilla.org/en-US/docs/Web/CSS/color_value/color-mix" }),
    ("css-accent-color",
     { id := "css-accent-color",
       baseline := { status := "newly", since := some "2022-03" },
       browser_support := [("chrome", 93), ("firefox", 92), ("safari", 15.4)],
       mdn_url := some "https://developer.mozilla.org/en-US/docs/Web/CSS/accent-color" }),
    ("css-backdrop-filter",
     { id := "css-backdrop-filter",
       baseline := { status := "newly", since := some "2022-03" },
       browser_support := [("chrome", 76), ("firefox", 103), ("safari", 9)],
       mdn_url := some "https://developer.mozilla.org/en-US/docs/Web/CSS/backdrop-filter" }),
    ("css-scroll-behavior",
     { id := "css-scroll-behavior",
       baseline := { status := "newly", since := some "2022-03" },
       browser_support := [("chrome", 61), ("firefox", 36), ("safari", 15.4)],
       mdn_url := some "https://developer.mozilla.org/en-US/docs/Web/CSS/scroll-behavior" }),
    ("intersection-observer",
     { id := "intersection-observer",
       baseline := { status := "newly", since := some "2022-03" },
       browser_support := [("chrome", 51), ("firefox", 55), ("safari", 12.1)],
       mdn_url := some "https://developer.mozilla.org/en-US/docs/Web/API/Intersection_Observer_API" }),
    ("resize-observer",
     { id := "resize-observer",
       baseline := { status := "newly", since := some "2023-03" },
       browser_support := [("chrome", 64), ("firefox", 69), ("safari", 13.1)],
       mdn_url := some "https://developer.mozilla.org/en-US/docs/Web/API/Resize_Observer_API" }),
    ("broadcast-channel",
     { id := "broadcast-channel",
       baseline := { status := "newly", since := some "2022-03" },
       browser_support := [("chrome", 54), ("firefox", 38), ("safari", 15.4)],
       mdn_url := some "https://developer.mozilla.org/en-US/docs/Web/API/Broadcast_Channel_API" }),
    ("array-flat",
     { id := "array-flat",
       baseline := { status := "newly", since := some "2022-03" },
       browser_support := [("chrome", 69), ("firefox", 62), ("safari", 12)],
       mdn_url := some "https://developer.mozilla.org/en-US/docs/Web/JavaScript/Reference/Global_Objects/Array/flat" }),
    ("array-flatmap",
     { id := "array-flatmap",
       baseline := { status := "newly", since := some "2022-03" },
       browser_support := [("chrome", 69), ("firefox", 62), ("safari", 12)],
       mdn_url := some "https://developer.mozilla.org/en-US/docs/Web/JavaScript/Reference/Global_Objects/Array/flatMap" }),
    ("object-fromentries",
     { id := "object-fromentries",
       baseline := { status := "newly", since := some "2022-03" },
       browser_support := [("chrome", 73), ("firefox", 63), ("safari", 12.1)],
       mdn_url := some "https://developer.mozilla.org/en-US/docs/Web/JavaScript/Reference/Global_Objects/Object/fromEntries" }),
    ("string-matchall",
     { id := "string-matchall",
       baseline := { status := "newly", since := some "2022-03" },
       browser_support := [("chrome", 73), ("firefox", 67), ("safari", 13)],
       mdn_url := some "https://developer.mozilla.org/en-US/docs/Web/JavaScript/Reference/Global_Objects/String/matchAll" }),
    ("bigint",
     { id := "bigint",
       baseline := { status := "newly", since := some "2022-03" },
       browser_support := [("chrome", 67), ("firefox", 68), ("safari", 14)],
       mdn_url := some "https://developer.mozilla.org/en-US/docs/Web/JavaScript/Reference/Global_Objects/BigInt" }),
    ("globalthis",
     { id := "globalthis",
       baseline := { status := "newly", since := some "2022-03" },
       browser_support := [("chrome", 71), ("firefox", 65), ("safari", 12.1)],
       mdn_url := some "https://developer.mozilla.org/en-US/docs/Web/JavaScript/Reference/Global_Objects/globalThis" }),
    ("array-at",
     { id := "array-at",
       baseline := { status := "newly", since := some "2022-03" },
       browser_support := [("chrome", 92), ("firefox", 90), ("safari", 15.4)],
       mdn_url := some "https://developer.mozilla.org/en-US/docs/Web/JavaScript/Reference/Global_Objects/Array/at" }) ]

/-- `webFeaturesData[featureId]` lookup. -/
def webFeaturesDataGet (featureId : String) : Option WebFeature :=
  webFeaturesData.lookup featureId

/-! ## Baseline engine (core/baseline-engine.ts) -/

/-- `const feature = baselineData || webFeature?.baseline` — the catalog
entry used by `isFeatureBaseline`, `getSeverityForFeature` and
`getBaselineMessage` (the `baselineFeatures` entry wins; otherwise the
`webFeaturesData` entry's `baseline` field). -/
def resolvedBaselineData (featureId : String) : Option BaselineData :=
  match baselineFeaturesGet featureId with
  | some d => some d
  | none => (webFeaturesDataGet featureId).map (·.baseline)

/-- The support status the engine resolves for a feature id, if any. -/
def catalogStatus (featureId : String) : Option String :=
  (resolvedBaselineData featureId).map (·.status)

/-- `BaselineEngine.normalizeBrowserName`: maps browserslist names to the
support-table naming. -/
def normalizeBrowserName (browserName : String) : String :=
  if browserName = "chrome" then "chrome"
  else if browserName = "firefox" then "firefox"
  else if browserName = "safari" then "safari"
  else if browserName = "edge" then "edge"
  else if browserName = "and_chr" then "chrome"
  else if browserName = "and_ff" then "firefox"
  else if browserName = "ios_saf" then "safari"
  else if browserName = "ie" then "ie"
  else browserName

/-- One iteration of the support loop in
`BaselineEngine.calculateBrowserslistCoverage`: the browser pair counts as
supported when the feature's support table records a version for the
normalized browser name (`if (featureSupportVersion)`) and that version is
`<=` the required version. -/
def browserPairSupported (wf : WebFeature) (browser : String × ℚ) : Bool :=
  match wf.browser_support.lookup (normalizeBrowserName browser.1) with
  | some supportVersion => supportVersion ≤ browser.2
  | none => false

/-- The body of `BaselineEngine.calculateBrowserslistCoverage` after the
query has been resolved to browser pairs: count supported pairs and test
`coverage >= 0.95`.  (When `browsers` is empty the source computes
`0 / 0 = NaN` and `NaN >= 0.95` is false; here `0 / 0 = 0` in `ℚ` and
`0 >= 0.95` is false — the verdicts agree.) -/
def coverageOnBrowsers (wf : WebFeature) (browsers : List (String × ℚ)) : Bool :=
  let supportedBrowsers := browsers.countP (browserPairSupported wf)
  let totalBrowsers := browsers.length
  decide ((supportedBrowsers : ℚ) / (totalBrowsers : ℚ) ≥ 95 / 100)

/-- `BaselineEngine.calculateBrowserslistCoverage(featureId, query)`.
`resolve` models the external `browserslist` call plus the source's
`split(' ')` / `parseFloat` post-processing of each returned browser. -/
def calculateBrowserslistCoverage (resolve : List String → List (String × ℚ))
    (featureId : String) (browserslistQuery : List String) : Bool :=
  match webFeaturesDataGet featureId with
  | none => false
  | some wf => coverageOnBrowsers wf (resolve browserslistQuery)

/-- `BaselineEngine.getDefaultBrowserslistForYear` (the `switch` treats any
non-"2025" argument as "2024"). -/
def getDefaultBrowserslistForYear (year : String) : List String :=
  if year = "2025" then
    ["chrome >= 109", "firefox >= 109", "safari >= 16.4", "edge >= 109"]
  else
    ["chrome >= 105", "firefox >= 105", "safari >= 15.4", "edge >= 105"]

/-- `BaselineEngine.isFeatureBaseline(featureId)`.  Mirrors the source's
decision sequence: unknown id → false; `"widely"` → true; custom target
with a query list present → browserslist coverage; `"newly"` with a
`since` date → year comparison (`parseInt` of the year prefixes, any
comparison against `NaN` false), recomputed through the default-year
browserslist when the feature has a support table; otherwise false
(covers the explicit `"limited"` case and the final `return false`). -/
def isFeatureBaseline (resolve : List String → List (String × ℚ))
    (target : BaselineTarget) (featureId : String) : Bool :=
  match resolvedBaselineData featureId with
  | none => false
  | some feature =>
    if feature.status = "widely" then true
    else if target.year = "custom" && target.customBrowserslist.isSome then
      calculateBrowserslistCoverage resolve featureId (target.customBrowserslist.getD [])
    else if feature.status = "newly" && feature.since.isSome then
      let featureYear := jsParseInt (splitHead '-' (feature.since.getD ""))
      let targetYear := jsParseInt target.year
      let yearBaseline := jsLe featureYear targetYear
      if yearBaseline && (webFeaturesDataGet featureId).isSome
          && !(target.year = "custom") then
        calculateBrowserslistCoverage resolve featureId
          (getDefaultBrowserslistForYear target.year)
      else yearBaseline
    else false

/-- `BaselineEngine.getSeverityForFeature(featureId)`. -/
def getSeverityForFeature (featureId : String) : String :=
  match resolvedBaselineData featureId with
  | none => "warning"
  | some feature =>
    if feature.status = "limited" then "error"
    else if feature.status = "newly" then "warning"
    else if feature.status = "widely" then "info"
    else "warning"

/-- `BaselineEngine.getBaselineMessage(featureId)`. -/
def getBaselineMessage (featureId : String) : String :=
  match resolvedBaselineData featureId with
  | none => "Unknown baseline status"
  | some feature =>
    if feature.status = "limited" then
      "Limited browser support - use with caution or provide fallbacks"
    else if feature.status = "newly" then
      match feature.since with
      | some since => "Newly supported since " ++ since ++ " - consider your browser targets"
      | none => "Newly supported - consider your browser targets"
    else if feature.status = "widely" then
      "Widely supported across browsers"
    else "Unknown baseline status"

/-- `BaselineEngine.filterResults`: keep only non-baseline occurrences. -/
def filterResults (resolve : List String → List (String × ℚ))
    (target : BaselineTarget) (results : List CompatibilityResult) :
    List CompatibilityResult :=
  results.filter (fun result => !isFeatureBaseline resolve target result.feature)

/-- The element transformation of `BaselineEngine.enhanceResults`: append
the baseline status message, leaving every other field (in particular the
severity coming from configuration) unchanged. -/
def enhanceResult (result : CompatibilityResult) : CompatibilityResult :=
  { result with message := result.message ++ " - " ++ getBaselineMessage result.feature }

/-- `BaselineEngine.enhanceResults`. -/
def enhanceResults (results : List CompatibilityResult) :
    List CompatibilityResult :=
  results.map enhanceResult

/-! ## Configuration resolver (publishing/cli/src/core/config/config-loader.ts) -/

/-- A `rules` map entry of `BaselineConfig`. -/
structure RuleEntry where
  severity : Option String := none
  message : Option String := none
  deriving DecidableEq

/-- The resolved `BaselineConfig`.  The TS `include`/`exclude` fields are
named `includePatterns`/`excludePatterns` here (`include` is a Lean
keyword); maps are association lists. -/
structure BaselineConfig where
  baselineTarget : String
  baselineBrowserslist : Option (List String) := none
  severityDefault : String
  severityFeatures : Option (List (String × String)) := none
  includePatterns : Option (List String) := none
  excludePatterns : Option (List String) := none
  rules : Option (List (String × RuleEntry)) := none
  deriving DecidableEq

/-- `DEFAULT_CONFIG` of the configuration loader. -/
def DEFAULT_CONFIG : BaselineConfig :=
  { baselineTarget := "2024",
    severityDefault := "warning",
    excludePatterns := some ["**/node_modules/**", "**/dist/**", "**/build/**", "**/.git/**"] }

/-- `config.rules?.[featureId]?.severity` — the per-feature rules severity. -/
def ruleSeverityOf (featureId : String) (config : BaselineConfig) : Option String :=
  (config.rules.bind (·.lookup featureId)).bind (·.severity)

/-- `config.severity.features?.[featureId]` — the per-feature map severity. -/
def featureSeverityOf (featureId : String) (config : BaselineConfig) : Option String :=
  config.severityFeatures.bind (·.lookup featureId)

/-- `ConfigLoader.shouldIgnoreFeature`: the feature is dropped when the
`rules` entry or the `severity.features` entry resolves to `'ignore'`. -/
def shouldIgnoreFeature (featureId : String) (config : BaselineConfig) : Bool :=
  (match ruleSeverityOf featureId config with
   | some s => s = "ignore"
   | none => false) ||
  (match featureSeverityOf featureId config with
   | some s => s = "ignore"
   | none => false)

/-- The `severity.features` fallback step of `ConfigLoader.getFeatureSeverity`. -/
def featureMapSeverity (featureId : String) (config : BaselineConfig) : String :=
  match featureSeverityOf featureId config with
  | some featureSeverity =>
    if featureSeverity ≠ "ignore" then featureSeverity else config.severityDefault
  | none => config.severityDefault

/-- `ConfigLoader.getFeatureSeverity`: rules entry first, then the
`severity.features` map, then the global default; an `'ignore'` value at a
level falls through to the next level. -/
def getFeatureSeverity (featureId : String) (config : BaselineConfig) : String :=
  match ruleSeverityOf featureId config with
  | some ruleSeverity =>
    if ruleSeverity ≠ "ignore" then ruleSeverity else featureMapSeverity featureId config
  | none => featureMapSeverity featureId config

/-! ### Configuration loading (`ConfigLoader.loadConfig`)

The raw JSON document is modelled by `ConfigDoc` (string-typed fields, all
optional sections), schema validation by `validateConfigSchema` following
`baselineConfigSchema` (core/config/config-schema.ts), and the merge by
`mergeWithDefaults`.  File discovery, JSON parsing and the cache are I/O
and are outside the model; the external `browserslist(query)` validation
call is the `browserslistOk` argument. -/

/-- A raw `rules` entry as read from JSON. -/
structure RuleDoc where
  severity : Option String := none
  message : Option String := none
  deriving DecidableEq

/-- The raw `baseline` section as read from JSON. -/
structure BaselineDoc where
  target : String
  browserslist : Option (List String) := none
  deriving DecidableEq

/-- The raw `severity` section as read from JSON. -/
structure SeverityDoc where
  default : String
  features : Option (List (String × String)) := none
  deriving DecidableEq

/-- A parsed user configuration document. -/
structure ConfigDoc where
  baseline : Option BaselineDoc := none
  severity : Option SeverityDoc := none
  includePatterns : Option (List String) := none
  excludePatterns : Option (List String) := none
  rules : Option (List (String × RuleDoc)) := none
  deriving DecidableEq

/-- Schema validation per `baselineConfigSchema`: `baseline` and
`severity` are required; `baseline.target` is one of "2024"/"2025"/
"custom"; `severity.default` is one of "error"/"warning"/"info";
`severity.features` values and `rules` severities range over the three
severities plus "ignore".  Note the schema does NOT require
`baseline.browserslist`, for any target. -/
def validateConfigSchema (doc : ConfigDoc) : Bool :=
  (match doc.baseline with
   | none => false
   | some b => ["2024", "2025", "custom"].contains b.target) &&
  (match doc.severity with
   | none => false
   | some s =>
     ["error", "warning", "info"].contains s.default &&
     (match s.features with
      | none => true
      | some fs => fs.all (fun kv => ["error", "warning", "info", "ignore"].contains kv.2))) &&
  (match doc.rules with
   | none => true
   | some rs => rs.all (fun kv =>
      match kv.2.severity with
      | none => true
      | some sev => ["error", "warning", "info", "ignore"].contains sev))

/-- `ConfigLoader.mergeWithDefaults`: absent fields fall back to
`DEFAULT_CONFIG`; a provided `exclude` list replaces the default one. -/
def mergeWithDefaults (doc : ConfigDoc) : BaselineConfig :=
  { baselineTarget :=
      match doc.baseline with
      | some b => b.target
      | none => DEFAULT_CONFIG.baselineTarget,
    baselineBrowserslist := doc.baseline.bind (·.browserslist),
    severityDefault :=
      match doc.severity with
      | some s => s.default
      | none => DEFAULT_CONFIG.severityDefault,
    severityFeatures := doc.severity.bind (·.features),
    includePatterns := doc.includePatterns,
    excludePatterns :=
      match doc.excludePatterns with
      | some e => some e
      | none => DEFAULT_CONFIG.excludePatterns,
    rules := doc.rules.map (·.map (fun kv =>
      (kv.1, { severity := kv.2.severity, message := kv.2.message }))) }

/-- The load-time checks of `ConfigLoader.loadConfig` on a parsed document:
schema validation, merge, and — only when the merged target is "custom"
AND a browserslist array is present (in JS even an empty array is truthy) —
validation of the query list through the external browserslist library
(`browserslistOk`, whose failure raises the fatal load error). -/
def loadConfigChecked (browserslistOk : List String → Bool) (doc : ConfigDoc) :
    Except String BaselineConfig :=
  if !validateConfigSchema doc then
    Except.error "Configuration validation failed"
  else
    let mergedConfig := mergeWithDefaults doc
    if mergedConfig.baselineTarget = "custom" && mergedConfig.baselineBrowserslist.isSome then
      if browserslistOk (mergedConfig.baselineBrowserslist.getD []) then
        Except.ok mergedConfig
      else
        Except.error "Invalid browserslist configuration"
    else
      Except.ok mergedConfig

/-! ## Suppression resolver (parseIgnoreComments / isLineIgnored)

The JS parser recognizes both the line-comment and the block-comment form
(core/parsers/javascript.ts); the CSS parser only the block form
(core/parsers/css.ts).  Both add the marker's own 1-based line, and — when
the marker stands alone on its line (after trim) and a following line
exists — also the following line. -/

/-- The line-comment marker of the JS suppression resolver. -/
def lineMarkerJS : String := "// baseline-buddy-ignore"

/-- The block-comment marker recognized by both resolvers. -/
def blockMarker : String := "/* baseline-buddy-ignore */"

/-- Lines contributed by one source line at 0-based index `i`
(1-based line number `i + 1`) for a single marker form. -/
def markerContribution (marker : String) (numLines i : Nat) (line : String) : List Nat :=
  if strIncludes marker line then
    [i + 1] ++ (if strTrim line = marker && i + 1 < numLines then [i + 2] else [])
  else []

/-- `parseIgnoreComments` of the JS parser, on the split lines. -/
def ignoreLinesJS (lines : List String) : List Nat :=
  (List.range lines.length).flatMap (fun i =>
    let line := lines.getD i ""
    markerContribution lineMarkerJS lines.length i line ++
    markerContribution blockMarker lines.length i line)

/-- `parseIgnoreComments(content)` of the JS parser
(core/parsers/javascript.ts, lines 391-421). -/
def parseIgnoreComments (content : String) : List Nat :=
  ignoreLinesJS (splitLines content)

/-- `parseIgnoreComments` of the CSS parser (block form only). -/
def ignoreLinesCSS (lines : List String) : List Nat :=
  (List.range lines.length).flatMap (fun i =>
    markerContribution blockMarker lines.length i (lines.getD i ""))

/-- `parseIgnoreComments(content)` of the CSS parser
(core/parsers/css.ts, lines 188-207). -/
def parseIgnoreCommentsCSS (content : String) : List Nat :=
  ignoreLinesCSS (splitLines content)

/-- `isLineIgnored(line, ignoredLines)`: the line itself or the line
immediately above is in the suppression set. -/
def isLineIgnored (line : Nat) (ignoredLines : List Nat) : Bool :=
  ignoredLines.contains line || ignoredLines.contains (line - 1)

/-! ## Occurrence construction (core/parsers/javascript.ts) -/

/-- The shape of the optional `webFeature` argument of `createResult`:
either a full catalog entry or one of the inline
`{ baseline: { status: 'limited' } }` objects of `checkWebAPI`. -/
structure WebFeatureArg where
  baseline : BaselineData
  browser_support : Option (List (String × ℚ)) := none
  mdn_url : Option String := none
  deriving DecidableEq

/-- View of a full `WebFeature` as a `createResult` argument. -/
def WebFeature.toArg (wf : WebFeature) : WebFeatureArg :=
  { baseline := wf.baseline, browser_support := some wf.browser_support,
    mdn_url := wf.mdn_url }

/-- `createResult` (core/parsers/javascript.ts, lines 427-451). -/
def createResult (file : String) (line column : Nat) (feature message severity : String)
    (webFeature : Option WebFeatureArg := none) : CompatibilityResult :=
  { file := file, line := line, column := column, feature := feature,
    message := message, severity := severity,
    baseline :=
      match webFeature with
      | some wf => wf.baseline.status
      | none => "unknown",
    browserSupport :=
      match webFeature.bind (·.browser_support) with
      | some bs => bs.map (·.1)
      | none => [],
    fixes :=
      match webFeature.bind (·.mdn_url) with
      | some url => some [{ type := "documentation", description := "Learn more on MDN",
                            url := some url }]
      | none => none }

/-- `checkWebAPI` (core/parsers/javascript.ts, lines 291-389): the
hardcoded API checks that take priority over the generic table lookup.
`propertyName` is the member expression's property identifier (used by the
IntersectionObserver v2 branch).  Returns the (at most one) pushed result
together with the boolean return value. -/
def checkWebAPI (apiCall : String) (line column : Nat) (propertyName : Option String)
    (filename : String) (ignoredLines : List Nat) :
    Option CompatibilityResult × Bool :=
  if isLineIgnored line ignoredLines then (none, false)
  else if apiCall = "dialog.showModal" || apiCall = "dialog.close" then
    (some (createResult filename line column "dialog-element"
      (apiCall ++ "() - Dialog element requires modern browsers") "warning"
      (some { baseline := { status := "limited" } })), true)
  else if strIncludes "clipboard.write" apiCall || apiCall = "navigator.clipboard.writeText"
      || apiCall = "navigator.clipboard.read" || apiCall = "navigator.clipboard.readText" then
    (some (createResult filename line column "clipboard-api"
      (apiCall ++ "() - Clipboard API requires modern browsers and user permission") "warning"
      (some { baseline := { status := "limited" } })), true)
  else if apiCall = "navigator.share" then
    (some (createResult filename line column "web-share-api"
      "navigator.share() - Web Share API is not widely supported" "warning"
      (some { baseline := { status := "limited" } })), true)
  else if apiCall = "document.startViewTransition" then
    (some (createResult filename line column "view-transitions"
      "document.startViewTransition() - View Transitions API requires modern browsers" "warning"
      (some { baseline := { status := "limited" } })), true)
  else if strIncludes "attributeStyleMap" apiCall || strIncludes "computedStyleMap" apiCall then
    (some (createResult filename line column "css-typed-om"
      (apiCall ++ " - CSS Typed Object Model requires modern browsers") "warning"
      (some { baseline := { status := "limited" } })), true)
  else if strIncludes "IntersectionObserver" apiCall
      && (propertyName = some "trackVisibility" || propertyName = some "delay") then
    (some (createResult filename line column "intersection-observer-v2"
      "IntersectionObserver v2 features (trackVisibility, delay) require modern browsers" "warning"
      (some { baseline := { status := "limited" } })), true)
  else (none, false)

/-! ## Result aggregation (core/checker.ts) -/

/-- The element transformation of `applyConfiguration`: overwrite the
severity with the configured one. -/
def configureSeverity (config : BaselineConfig) (result : CompatibilityResult) :
    CompatibilityResult :=
  { result with severity := getFeatureSeverity result.feature config }

/-- `applyConfiguration(results, config)`: drop occurrences resolved to
`'ignore'` and overwrite the severity with the configured one. -/
def applyConfiguration (results : List CompatibilityResult) (config : BaselineConfig) :
    List CompatibilityResult :=
  (results.filter (fun result => !shouldIgnoreFeature result.feature config)).map
    (configureSeverity config)

/-- The baseline target the aggregator builds for the engine
(`new BaselineEngine({ year: config.baseline.target,
customBrowserslist: config.baseline.browserslist })`). -/
def targetOfConfig (config : BaselineConfig) : BaselineTarget :=
  { year := config.baselineTarget, customBrowserslist := config.baselineBrowserslist }

/-- The per-unit post-processing of `checkCompatibilityWithConfig`:
configuration filter, baseline filter, baseline-aware enhancement. -/
def processFileResults (resolve : List String → List (String × ℚ))
    (config : BaselineConfig) (fileResults : List CompatibilityResult) :
    List CompatibilityResult :=
  enhanceResults (filterResults resolve (targetOfConfig config)
    (applyConfiguration fileResults config))

/-- Model of `parseJavaScript` (core/parsers/javascript.ts): the Babel
parse is external, so its outcome is an `Except` argument; on a parse
failure the catch block logs and the accumulated results — still empty,
since the failure precedes any traversal — are returned; on success the
traversal (`walk`) produces the occurrence list. -/
def parseJavaScript (Ast : Type) (walk : Ast → List CompatibilityResult)
    (parsed : Except String Ast) : List CompatibilityResult :=
  match parsed with
  | Except.error _ => []
  | Except.ok ast => walk ast

/-- Model of `parseCSS` (core/parsers/css.ts): same fail-soft shape. -/
def parseCSS (Ast : Type) (walk : Ast → List CompatibilityResult)
    (parsed : Except String Ast) : List CompatibilityResult :=
  match parsed with
  | Except.error _ => []
  | Except.ok ast => walk ast

/-- The batch loop of `checkCompatibilityWithConfig`: each unit's raw
occurrence production (file read + parse) may fail; a failure is caught and
logged and the batch continues, the unit contributing nothing.  A
successful unit contributes its post-processed results in order. -/
def processBatch (resolve : List String → List (String × ℚ))
    (config : BaselineConfig) (units : List (Except String (List CompatibilityResult))) :
    List CompatibilityResult :=
  units.flatMap (fun unit =>
    match unit with
    | Except.error _ => []
    | Except.ok fileResults => processFileResults resolve config fileResults)

deriving instance DecidableEq for Except

/-! ## Concrete inputs used in witnesses and counterexamples -/

/-- A browserslist resolution returning no browser pairs. -/
def emptyResolve : List String → List (String × ℚ) := fun _ => []

/-- The `webFeaturesData` entry for "css-has-selector" (chrome 105,
firefox 121, safari 15.4). -/
def wfHasSelector : WebFeature :=
  { id := "css-has-selector",
    baseline := { status := "newly", since := some "2023-12" },
    browser_support := [("chrome", 105), ("firefox", 121), ("safari", 15.4)],
    mdn_url := some "https://developer.mozilla.org/en-US/docs/Web/CSS/:has" }

/-- Twenty browser pairs of which 19 support "css-has-selector"
(19 × chrome 120 ≥ 105; firefox 100 < 121 does not). -/
def pairsOf20With19 : List (String × ℚ) :=
  List.replicate 19 ("chrome", (120 : ℚ)) ++ [("firefox", 100)]

/-- Twenty browser pairs of which 18 support "css-has-selector"
(18 × chrome 120 ≥ 105; firefox 100 < 121 and safari 12 < 15.4 do not). -/
def pairsOf20With18 : List (String × ℚ) :=
  List.replicate 18 ("chrome", (120 : ℚ)) ++ [("firefox", 100), ("safari", 12)]

/-- A browserslist resolution yielding the 19-of-20 pair list. -/
def resolve19of20 : List String → List (String × ℚ) := fun _ => pairsOf20With19

/-- A browserslist resolution yielding the 18-of-20 pair list. -/
def resolve18of20 : List String → List (String × ℚ) := fun _ => pairsOf20With18

/-- The occurrence the JS matcher's `OptionalMemberExpression` visitor
pushes for the `a?.b` chain of `const x = a?.b ?? c;` (line 1). -/
def optionalChainingOcc : CompatibilityResult :=
  createResult "test.js" 1 10 "optional-chaining"
    "Optional chaining (?.) requires modern browsers" "warning"

/-- The occurrence the JS matcher's `LogicalExpression` visitor pushes for
the `??` operator of `const x = a?.b ?? c;` (line 1). -/
def nullishCoalescingOcc : CompatibilityResult :=
  createResult "test.js" 1 10 "nullish-coalescing"
    "Nullish coalescing (??) requires modern browsers" "warning"

/-- An occurrence of the limited-status feature "clipboard-api" as a
matcher would create it (matcher-level severity "warning"). -/
def clipboardOcc : CompatibilityResult :=
  createResult "test.js" 3 1 "clipboard-api"
    "navigator.clipboard.writeText() - Clipboard API requires modern browsers and user permission"
    "warning" (some { baseline := { status := "limited" } })

/-- An occurrence whose feature id appears in neither catalog table. -/
def unknownIdOcc : CompatibilityResult :=
  createResult "test.js" 1 0 "some-unknown-feature" "unknown feature usage" "warning"

/-- A user configuration document with a custom target and no
browserslist query list. -/
def customDocNoQuery : ConfigDoc :=
  { baseline := some { target := "custom" },
    severity := some { default := "warning" } }

/-- A configuration giving "css-has-selector" a `rules` severity of
"error" and a `severity.features` severity of "info". -/
def precedenceConfig : BaselineConfig :=
  { baselineTarget := "2024",
    severityDefault := "warning",
    severityFeatures := some [("css-has-selector", "info")],
    rules := some [("css-has-selector", { severity := some "error" })] }

/-- A configuration marking "clipboard-api" as "ignore" in the rules map. -/
def ignoreConfig : BaselineConfig :=
  { baselineTarget := "2024",
    severityDefault := "warning",
    rules := some [("clipboard-api", { severity := some "ignore" })] }

/-- A source text with an inline suppression marker appended to line 1 of
real content, and a construct on line 2. -/
def inlineMarkerText : String :=
  "const a = 1; // baseline-buddy-ignore" ++ "\n" ++ "const b = c;"

/-- A source text with a standalone suppression marker on line 1 and
constructs on lines 2 and 3. -/
def standaloneMarkerText : String :=
  "// baseline-buddy-ignore" ++ "\n" ++ "const a = b;" ++ "\n" ++ "const c = d;"

/-! ## Helper lemmas -/

theorem enhanceResult_feature (r : CompatibilityResult) :
    (enhanceResult r).feature = r.feature := rfl

theorem configureSeverity_feature (config : BaselineConfig) (r : CompatibilityResult) :
    (configureSeverity config r).feature = r.feature := rfl

theorem enhanceResult_severity (r : CompatibilityResult) :
    (enhanceResult r).severity = r.severity := rfl

theorem configureSeverity_severity (config : BaselineConfig) (r : CompatibilityResult) :
    (configureSeverity config r).severity = getFeatureSeverity r.feature config := rfl

/-- Membership in the aggregator's per-unit output: exactly the raw
occurrences that are neither configured to `'ignore'` nor judged baseline,
with the configured severity and the enhanced message. -/
theorem mem_processFileResults {resolve : List String → List (String × ℚ)}
    {config : BaselineConfig} {results : List CompatibilityResult}
    {r' : CompatibilityResult} :
    r' ∈ processFileResults resolve config results ↔
      ∃ r ∈ results, shouldIgnoreFeature r.feature config = false ∧
        isFeatureBaseline resolve (targetOfConfig config) r.feature = false ∧
        r' = enhanceResult (configureSeverity config r) := by
  simp only [processFileResults, enhanceResults, filterResults, applyConfiguration,
    List.mem_map, List.mem_filter, configureSeverity_feature, Bool.not_eq_true']
  constructor
  · rintro ⟨a, ⟨⟨r, ⟨hr, hig⟩, rfl⟩, hbase⟩, rfl⟩
    exact ⟨r, hr, hig, by simpa [configureSeverity_feature] using hbase, rfl⟩
  · rintro ⟨r, hr, hig, hbase, rfl⟩
    exact ⟨configureSeverity config r,
      ⟨⟨r, ⟨hr, hig⟩, rfl⟩, by simpa [configureSeverity_feature] using hbase⟩, rfl⟩

/-- A feature resolved to status `"widely"` is always judged baseline,
whatever the target. -/
theorem widely_isFeatureBaseline (resolve : List String → List (String × ℚ))
    (target : BaselineTarget) {featureId : String}
    (h : catalogStatus featureId = some "widely") :
    isFeatureBaseline resolve target featureId = true := by
  cases hd : resolvedBaselineData featureId with
  | none => simp [catalogStatus, hd] at h
  | some d =>
    have hs : d.status = "widely" := by simpa [catalogStatus, hd] using h
    simp [isFeatureBaseline, hd, hs]

/-- A feature id absent from both catalog tables is never judged baseline. -/
theorem unknown_not_baseline (resolve : List String → List (String × ℚ))
    (target : BaselineTarget) {featureId : String}
    (h1 : baselineFeaturesGet featureId = none)
    (h2 : webFeaturesDataGet featureId = none) :
    isFeatureBaseline resolve target featureId = false := by
  have hd : resolvedBaselineData featureId = none := by
    simp [resolvedBaselineData, h1, h2]
  simp [isFeatureBaseline, hd]

/-- Membership in a single marker form's per-line contribution. -/
theorem mem_markerContribution {marker : String} {n i ℓ : Nat} {line : String} :
    ℓ ∈ markerContribution marker n i line ↔
      strIncludes marker line = true ∧
        (ℓ = i + 1 ∨ (ℓ = i + 2 ∧ strTrim line = marker ∧ i + 1 < n)) := by
  by_cases h1 : strIncludes marker line
  · by_cases h2 : strTrim line = marker <;> by_cases h3 : i + 1 < n <;>
      simp [markerContribution, h1, h2, h3]
  · simp [markerContribution, h1]

/-- Membership in the JS suppression set. -/
theorem mem_ignoreLinesJS {lines : List String} {ℓ : Nat} :
    ℓ ∈ ignoreLinesJS lines ↔
      ∃ i, i < lines.length ∧
        (ℓ ∈ markerContribution lineMarkerJS lines.length i (lines.getD i "") ∨
         ℓ ∈ markerContribution blockMarker lines.length i (lines.getD i "")) := by
  simp [ignoreLinesJS, List.mem_flatMap, List.mem_range, List.mem_append]

theorem countP_replicate (p : α → Bool) (a : α) (n : Nat) :
    (List.replicate n a).countP p = if p a then n else 0 := by
  induction n with
  | zero => simp
  | succ n ih =>
    rw [List.replicate_succ, List.countP_cons, ih]
    split <;> simp_all

/-- The `>= 0.95` coverage test, in integer form, for a non-empty pair
list. -/
theorem coverage_threshold_iff (wf : WebFeature) (browsers : List (String × ℚ))
    (h : browsers ≠ []) :
    coverageOnBrowsers wf browsers = true ↔
      19 * browsers.length ≤ 20 * browsers.countP (browserPairSupported wf) := by
  unfold coverageOnBrowsers
  rw [decide_eq_true_iff]
  have hlen : 0 < browsers.length := List.length_pos.mpr h
  have hlenQ : (0 : ℚ) < (browsers.length : ℚ) := by exact_mod_cast hlen
  rw [ge_iff_le, div_le_div_iff₀ (by norm_num) hlenQ]
  constructor
  · intro hq
    have hn : 95 * browsers.length ≤ browsers.countP (browserPairSupported wf) * 100 := by
      exact_mod_cast hq
    omega
  · intro hn
    have : (95 : ℚ) * browsers.length ≤ (browsers.countP (browserPairSupported wf) : ℚ) * 100 := by
      exact_mod_cast Nat.le_of_lt_succ (Nat.lt_succ_of_le (by omega))
    exact this

/-- The per-pair support criterion of the coverage loop. -/
theorem pair_supported_iff (wf : WebFeature) (engine : String) (version : ℚ) :
    browserPairSupported wf (engine, version) = true ↔
      ∃ minVersion,
        wf.browser_support.lookup (normalizeBrowserName engine) = some minVersion ∧
          minVersion ≤ version := by
  unfold browserPairSupported
  cases h : wf.browser_support.lookup (normalizeBrowserName engine) <;> simp [h]

/-- When the query resolves to no pairs, the coverage check returns false
(the source computes `0 / 0 = NaN` there and `NaN >= 0.95` is false). -/
theorem coverage_resolves_empty (resolve : List String → List (String × ℚ))
    (featureId : String) (query : List String) (h : resolve query = []) :
    calculateBrowserslistCoverage resolve featureId query = false := by
  unfold calculateBrowserslistCoverage
  cases hw : webFeaturesDataGet featureId with
  | none => rfl
  | some wf =>
    simp only [hw, h, coverageOnBrowsers, List.countP_nil, List.length_nil]
    norm_num

/-- Under a custom target with a query list, a known non-"widely" feature
with a support table is judged baseline exactly by the coverage check. -/
theorem custom_target_uses_coverage (resolve : List String → List (String × ℚ))
    (featureId : String) (queryList : List String) (wf : WebFeature)
    (hw : webFeaturesDataGet featureId = some wf)
    (hst : catalogStatus featureId ≠ some "widely") :
    isFeatureBaseline resolve ⟨"custom", some queryList⟩ featureId =
      coverageOnBrowsers wf (resolve queryList) := by
  have hres : ∃ d, resolvedBaselineData featureId = some d := by
    unfold resolvedBaselineData
    cases hb : baselineFeaturesGet featureId
    · exact ⟨wf.baseline, by rw [hw]; rfl⟩
    · exact ⟨_, rfl⟩
  obtain ⟨d, hd⟩ := hres
  have hstat : ¬ d.status = "widely" := by
    intro hcontra
    exact hst (by simp [catalogStatus, hd, hcontra])
  rw [isFeatureBaseline, hd]
  simp only [hstat, if_false, Option.isSome_some, Bool.and_true, if_neg hstat]
  simp [calculateBrowserslistCoverage, hw]

/-- No feature of the support-version table resolves to status "widely"
(so the coverage verdict is never pre-empted by the "widely" shortcut). -/
theorem webdata_never_widely :
    ∀ kv ∈ webFeaturesData, catalogStatus kv.1 ≠ some "widely" := by decide

theorem pair_chrome_120 : browserPairSupported wfHasSelector ("chrome", 120) = true := by
  simp [browserPairSupported, wfHasSelector, normalizeBrowserName, List.lookup]
  norm_num

theorem pair_firefox_100 : browserPairSupported wfHasSelector ("firefox", 100) = false := by
  simp [browserPairSupported, wfHasSelector, normalizeBrowserName, List.lookup]
  norm_num

theorem pair_safari_12 : browserPairSupported wfHasSelector ("safari", 12) = false := by
  simp [browserPairSupported, wfHasSelector, normalizeBrowserName, List.lookup]
  norm_num

theorem countP_19of20 :
    pairsOf20With19.countP (browserPairSupported wfHasSelector) = 19 := by
  rw [pairsOf20With19, List.countP_append, countP_replicate]
  simp [List.countP_cons, pair_chrome_120, pair_firefox_100]

theorem countP_18of20 :
    pairsOf20With18.countP (browserPairSupported wfHasSelector) = 18 := by
  rw [pairsOf20With18, List.countP_append, countP_replicate]
  simp [List.countP_cons, pair_chrome_120, pair_firefox_100, pair_safari_12]

theorem length_19of20 : pairsOf20With19.length = 20 := by simp [pairsOf20With19]

theorem length_18of20 : pairsOf20With18.length = 20 := by simp [pairsOf20With18]

/-- 19 supported pairs out of 20: ratio 0.95 meets the threshold. -/
theorem coverage_boundary_19 :
    calculateBrowserslistCoverage resolve19of20 "css-has-selector" ["custom query"] = true := by
  have hw : webFeaturesDataGet "css-has-selector" = some wfHasSelector := rfl
  simp only [calculateBrowserslistCoverage, hw, resolve19of20]
  rw [coverage_threshold_iff _ _ (by simp [pairsOf20With19]), countP_19of20, length_19of20]

/-- 18 supported pairs out of 20: ratio 0.90 misses the threshold. -/
theorem coverage_boundary_18 :
    calculateBrowserslistCoverage resolve18of20 "css-has-selector" ["custom query"] = false := by
  have hw : webFeaturesDataGet "css-has-selector" = some wfHasSelector := rfl
  simp only [calculateBrowserslistCoverage, hw, resolve18of20]
  rw [Bool.eq_false_iff]
  intro hcontra
  rw [coverage_threshold_iff _ _ (by simp [pairsOf20With18]), countP_18of20,
    length_18of20] at hcontra
  omega

/-- Under `DEFAULT_CONFIG` (no `rules`, no `severity.features`) no feature
is configured to `'ignore'`. -/
theorem default_config_no_ignore (featureId : String) :
    shouldIgnoreFeature featureId DEFAULT_CONFIG = false := by
  simp [shouldIgnoreFeature, ruleSeverityOf, featureSeverityOf, DEFAULT_CONFIG]

/-- Under `DEFAULT_CONFIG` every feature's configured severity is the
global default "warning". -/
theorem default_config_severity (featureId : String) :
    getFeatureSeverity featureId DEFAULT_CONFIG = "warning" := by
  simp [getFeatureSeverity, featureMapSeverity, ruleSeverityOf, featureSeverityOf, DEFAULT_CONFIG]

/-! ## Claim theorems -/

/-- C1: for every feature whose catalog entry resolves to support status
"widely", `isFeatureBaseline` returns true under every target, and no
occurrence of such a feature survives the aggregator's per-unit pipeline
(configuration filter, `filterResults`, `enhanceResults`), for any input
and any configuration. -/
theorem c1_widely_never_reported :
    (∀ (resolve : List String → List (String × ℚ)) (target : BaselineTarget)
       (featureId : String), catalogStatus featureId = some "widely" →
        isFeatureBaseline resolve target featureId = true) ∧
    (∀ (resolve : List String → List (String × ℚ)) (config : BaselineConfig)
       (results : List CompatibilityResult) (r : CompatibilityResult),
        r ∈ processFileResults resolve config results →
        catalogStatus r.feature ≠ some "widely") := by
  constructor
  · intro resolve target featureId h
    exact widely_isFeatureBaseline resolve target h
  · intro resolve config results r hr hws
    rw [mem_processFileResults] at hr
    obtain ⟨r0, _, _, hbase, rfl⟩ := hr
    have hfeat : catalogStatus r0.feature = some "widely" := by
      simpa [enhanceResult_feature, configureSeverity_feature] using hws
    rw [widely_isFeatureBaseline resolve (targetOfConfig config) hfeat] at hbase
    exact absurd hbase (by simp)

/-- C1 witness: "fetch" is "widely" and judged baseline even under a
custom target; a concrete surviving diagnostic ("clipboard-api") has a
non-"widely" status. -/
theorem c1_widely_never_reported_witness :
    isFeatureBaseline emptyResolve ⟨"custom", some []⟩ "fetch" = true ∧
    catalogStatus (enhanceResult (configureSeverity DEFAULT_CONFIG clipboardOcc)).feature ≠
      some "widely" :=
  ⟨c1_widely_never_reported.1 emptyResolve ⟨"custom", some []⟩ "fetch" (by decide),
   c1_widely_never_reported.2 emptyResolve DEFAULT_CONFIG [clipboardOcc] _ (by decide)⟩

/-- C2: under a custom compatibility-query target, a browser pair counts
as supported exactly when the support table records a minimum version for
the (normalized) engine that is at most the pair's version; for a
non-empty resolution of N pairs the feature is judged baseline iff
supported/N >= 0.95 (in integer form, 19·N ≤ 20·supported); the
custom-target judgement of every known non-"widely" feature with a
support table is exactly the coverage verdict (and no feature of the
support table resolves to "widely"); at the boundary, 19 of 20 supported
pairs is baseline and 18 of 20 is not. -/
theorem c2_coverage_ratio :
    (∀ (wf : WebFeature) (engine : String) (version : ℚ),
       browserPairSupported wf (engine, version) = true ↔
         ∃ minVersion,
           wf.browser_support.lookup (normalizeBrowserName engine) = some minVersion ∧
             minVersion ≤ version) ∧
    (∀ (wf : WebFeature) (browsers : List (String × ℚ)), browsers ≠ [] →
       (coverageOnBrowsers wf browsers = true ↔
         19 * browsers.length ≤ 20 * browsers.countP (browserPairSupported wf))) ∧
    (∀ (resolve : List String → List (String × ℚ)) (featureId : String)
       (queryList : List String) (wf : WebFeature),
        webFeaturesDataGet featureId = some wf →
        catalogStatus featureId ≠ some "widely" →
        isFeatureBaseline resolve ⟨"custom", some queryList⟩ featureId =
          coverageOnBrowsers wf (resolve queryList)) ∧
    (∀ kv ∈ webFeaturesData, catalogStatus kv.1 ≠ some "widely") ∧
    calculateBrowserslistCoverage resolve19of20 "css-has-selector" ["custom query"] = true ∧
    calculateBrowserslistCoverage resolve18of20 "css-has-selector" ["custom query"] = false :=
  ⟨pair_supported_iff, coverage_threshold_iff, custom_target_uses_coverage,
   webdata_never_widely, coverage_boundary_19, coverage_boundary_18⟩

/-- C2 witness: the threshold characterization at the concrete 19-of-20
pair list, and the custom-target tie at "css-has-selector". -/
theorem c2_coverage_ratio_witness :
    (coverageOnBrowsers wfHasSelector pairsOf20With19 = true ↔
      19 * pairsOf20With19.length ≤
        20 * pairsOf20With19.countP (browserPairSupported wfHasSelector)) ∧
    isFeatureBaseline resolve19of20 ⟨"custom", some ["custom query"]⟩ "css-has-selector" =
      coverageOnBrowsers wfHasSelector (resolve19of20 ["custom query"]) :=
  ⟨c2_coverage_ratio.2.1 wfHasSelector pairsOf20With19 (by decide),
   c2_coverage_ratio.2.2.1 resolve19of20 "css-has-selector" ["custom query"] wfHasSelector
     rfl (by decide)⟩

/-- C3: evaluating the code at the spec's end-to-end example input.  The
two occurrences the matcher emits for `const x = a?.b ?? c;` carry the
feature ids "optional-chaining" and "nullish-coalescing", whose catalog
entries say `newly, since 2022-03`; under the default configuration
(target "2024", no overrides) the engine judges both baseline
(2022 ≤ 2024, and no support-table entry exists to trigger the coverage
recomputation), so `filterResults` drops both and the aggregator's final
diagnostic list for this input is empty — not the two "warning"
diagnostics the spec (and the repository's own checker/end-to-end tests)
expect. -/
theorem c3_default_pipeline_drops_example :
    ∀ resolve : List String → List (String × ℚ),
      targetOfConfig DEFAULT_CONFIG = ⟨"2024", none⟩ ∧
      isFeatureBaseline resolve ⟨"2024", none⟩ "optional-chaining" = true ∧
      isFeatureBaseline resolve ⟨"2024", none⟩ "nullish-coalescing" = true ∧
      processFileResults resolve DEFAULT_CONFIG
        [optionalChainingOcc, nullishCoalescingOcc] = [] := by
  intro resolve
  exact ⟨rfl, rfl, rfl, rfl⟩

/-- C4 (amended): the actual suppression window.  For a source whose only
marker-bearing line is line `k + 1` (0-based index `k`), carrying the JS
line marker: if the marker stands alone (trims to the marker), the
suppressed lines are exactly `k + 1`, `k + 2`, and — when a following
line exists — also `k + 3`; if the marker is appended to other content,
the suppressed lines are exactly `k + 1` AND `k + 2` (the following line
is suppressed too, because `isLineIgnored` also tests the preceding
line). -/
theorem c4_suppression_window :
    ∀ (lines : List String) (k : Nat),
      k < lines.length →
      (∀ i ∈ List.range lines.length, i ≠ k →
         strIncludes lineMarkerJS (lines.getD i "") = false ∧
         strIncludes blockMarker (lines.getD i "") = false) →
      strIncludes lineMarkerJS (lines.getD k "") = true →
      strIncludes blockMarker (lines.getD k "") = false →
      ((strTrim (lines.getD k "") = lineMarkerJS →
         ∀ ℓ, isLineIgnored ℓ (ignoreLinesJS lines) = true ↔
           (ℓ = k + 1 ∨ ℓ = k + 2 ∨ (ℓ = k + 3 ∧ k + 1 < lines.length))) ∧
       (strTrim (lines.getD k "") ≠ lineMarkerJS →
         ∀ ℓ, isLineIgnored ℓ (ignoreLinesJS lines) = true ↔ (ℓ = k + 1 ∨ ℓ = k + 2))) := by
  intro lines k hk honly hlm hbm
  have hmem : ∀ m : Nat, m ∈ ignoreLinesJS lines ↔
      (m = k + 1 ∨
        (m = k + 2 ∧ strTrim (lines.getD k "") = lineMarkerJS ∧ k + 1 < lines.length)) := by
    intro m
    rw [mem_ignoreLinesJS]
    constructor
    · rintro ⟨i, hi, hcase⟩
      by_cases hik : i = k
      · subst hik
        rcases hcase with h | h
        · rw [mem_markerContribution] at h
          exact h.2
        · rw [mem_markerContribution] at h
          rw [hbm] at h
          exact absurd h.1 (by simp)
      · have := honly i (List.mem_range.mpr hi) hik
        rcases hcase with h | h <;> rw [mem_markerContribution] at h
        · rw [this.1] at h
          exact absurd h.1 (by simp)
        · rw [this.2] at h
          exact absurd h.1 (by simp)
    · rintro (rfl | ⟨rfl, htrim, hnext⟩)
      · exact ⟨k, hk, Or.inl (mem_markerContribution.mpr ⟨hlm, Or.inl rfl⟩)⟩
      · exact ⟨k, hk, Or.inl (mem_markerContribution.mpr ⟨hlm, Or.inr ⟨rfl, htrim, hnext⟩⟩)⟩
  have hsup : ∀ ℓ : Nat, isLineIgnored ℓ (ignoreLinesJS lines) = true ↔
      ((ℓ = k + 1 ∨
         (ℓ = k + 2 ∧ strTrim (lines.getD k "") = lineMarkerJS ∧ k + 1 < lines.length)) ∨
       (ℓ - 1 = k + 1 ∨
         (ℓ - 1 = k + 2 ∧ strTrim (lines.getD k "") = lineMarkerJS ∧ k + 1 < lines.length))) := by
    intro ℓ
    simp only [isLineIgnored, Bool.or_eq_true, List.elem_iff, hmem]
  constructor
  · intro htrim ℓ
    rw [hsup ℓ]
    simp only [htrim, true_and, and_true, eq_self_iff_true]
    omega
  · intro htrim ℓ
    rw [hsup ℓ]
    simp only [htrim, false_and, and_false, or_false]
    omega

/-- C4 witness: the window at concrete texts — for the standalone-marker
text, line 3 (two below the marker) is suppressed; for the inline-marker
text, line 2 (the line after the content line) is suppressed. -/
theorem c4_suppression_window_witness :
    (isLineIgnored 3 (ignoreLinesJS (splitLines standaloneMarkerText)) = true ↔
      (3 = 0 + 1 ∨ 3 = 0 + 2 ∨ (3 = 0 + 3 ∧ 0 + 1 < (splitLines standaloneMarkerText).length))) ∧
    (isLineIgnored 2 (ignoreLinesJS (splitLines inlineMarkerText)) = true ↔
      (2 = 0 + 1 ∨ 2 = 0 + 2)) :=
  ⟨(c4_suppression_window (splitLines standaloneMarkerText) 0 (by decide) (by decide)
      (by decide) (by decide)).1 (by decide) 3,
   (c4_suppression_window (splitLines inlineMarkerText) 0 (by decide) (by decide)
      (by decide) (by decide)).2 (by decide) 2⟩

/-- C4 counterexample: the claim as stated is false.  An inline marker on
line 1 also suppresses line 2 (the claim says occurrences on the
following line are still reported), and a standalone marker on line 1
also suppresses line 3 (the claim says no occurrence on any line other
than the covered construct's is eliminated). -/
theorem c4_suppression_counterexample :
    isLineIgnored 2 (parseIgnoreComments inlineMarkerText) = true ∧
    isLineIgnored 3 (parseIgnoreComments standaloneMarkerText) = true := by
  decide

/-- C5 counterexample: "clipboard-api" has catalog status "limited" and is
judged non-baseline under the default target, the default configuration
has no per-feature override, yet its final diagnostic carries severity
"warning" (the configured default), not "error". -/
theorem c5_severity_counterexample :
    catalogStatus "clipboard-api" = some "limited" ∧
    isFeatureBaseline emptyResolve (targetOfConfig DEFAULT_CONFIG) "clipboard-api" = false ∧
    DEFAULT_CONFIG.rules = none ∧
    DEFAULT_CONFIG.severityFeatures = none ∧
    (processFileResults emptyResolve DEFAULT_CONFIG [clipboardOcc]).map (·.severity) =
      ["warning"] := by
  decide

/-- C5 (amended): `getSeverityForFeature` does return "error" for
"limited" and "warning" for "newly", but the aggregator never applies it:
every final diagnostic's severity is `getFeatureSeverity` of the
configuration (which, with no per-feature override, is the configured
global default). -/
theorem c5_severity_amended :
    (∀ featureId, catalogStatus featureId = some "limited" →
       getSeverityForFeature featureId = "error") ∧
    (∀ featureId, catalogStatus featureId = some "newly" →
       getSeverityForFeature featureId = "warning") ∧
    (∀ (resolve : List String → List (String × ℚ)) (config : BaselineConfig)
       (results : List CompatibilityResult) (r : CompatibilityResult),
        r ∈ processFileResults resolve config results →
        r.severity = getFeatureSeverity r.feature config) ∧
    (∀ (config : BaselineConfig) (featureId : String),
        config.rules = none → config.severityFeatures = none →
        getFeatureSeverity featureId config = config.severityDefault) := by
  refine ⟨?_, ?_, ?_, ?_⟩
  · intro featureId h
    cases hd : resolvedBaselineData featureId with
    | none => simp [catalogStatus, hd] at h
    | some d =>
      have hs : d.status = "limited" := by simpa [catalogStatus, hd] using h
      simp [getSeverityForFeature, hd, hs]
  · intro featureId h
    cases hd : resolvedBaselineData featureId with
    | none => simp [catalogStatus, hd] at h
    | some d =>
      have hs : d.status = "newly" := by simpa [catalogStatus, hd] using h
      simp [getSeverityForFeature, hd, hs]
  · intro resolve config results r hr
    rw [mem_processFileResults] at hr
    obtain ⟨r0, _, _, _, rfl⟩ := hr
    simp [enhanceResult_severity, configureSeverity_severity, enhanceResult_feature,
      configureSeverity_feature]
  · intro config featureId h1 h2
    simp [getFeatureSeverity, featureMapSeverity, ruleSeverityOf, featureSeverityOf, h1, h2]

/-- C5 witness: the amended statement at concrete inputs — the evaluator
severity of "limited" "clipboard-api" is "error", its surviving default-
configuration diagnostic's severity is the configured one, and the
default configuration resolves every feature to its default "warning". -/
theorem c5_severity_amended_witness :
    getSeverityForFeature "clipboard-api" = "error" ∧
    (enhanceResult (configureSeverity DEFAULT_CONFIG clipboardOcc)).severity =
      getFeatureSeverity
        (enhanceResult (configureSeverity DEFAULT_CONFIG clipboardOcc)).feature
        DEFAULT_CONFIG ∧
    getFeatureSeverity "clipboard-api" DEFAULT_CONFIG = DEFAULT_CONFIG.severityDefault :=
  ⟨c5_severity_amended.1 "clipboard-api" (by decide),
   c5_severity_amended.2.2.1 emptyResolve DEFAULT_CONFIG [clipboardOcc] _ (by decide),
   c5_severity_amended.2.2.2 DEFAULT_CONFIG "clipboard-api" rfl rfl⟩

/-- C6 counterexample: `checkWebAPI` pushes a "web-share-api" occurrence
(an id absent from both catalog tables) with an inline status snapshot, so
its final diagnostic carries baseline "limited", not "unknown" — it does
survive with severity "warning", but the claim's universal "baseline
field = unknown" is false. -/
theorem c6_unknown_counterexample :
    baselineFeaturesGet "web-share-api" = none ∧
    webFeaturesDataGet "web-share-api" = none ∧
    (checkWebAPI "navigator.share" 3 6 (some "share") "app.js" []).2 = true ∧
    ((checkWebAPI "navigator.share" 3 6 (some "share") "app.js" []).1.toList.map
      (fun r => (r.feature, r.severity, r.baseline))) =
      [("web-share-api", "warning", "limited")] ∧
    ((processFileResults emptyResolve DEFAULT_CONFIG
        (checkWebAPI "navigator.share" 3 6 (some "share") "app.js" []).1.toList).map
      (fun r => (r.feature, r.severity, r.baseline))) =
      [("web-share-api", "warning", "limited")] := by
  refine ⟨by decide, by decide, rfl, rfl, rfl⟩

/-- C6 (amended): an id absent from both catalog tables is never judged
baseline, so its occurrence survives the default-configuration pipeline,
with severity "warning" and with its baseline field unchanged; the
baseline field is "unknown" exactly when the occurrence was created
without feature metadata (`createResult` with no `webFeature` argument) —
matcher-hardcoded pushes may instead carry an inline status snapshot. -/
theorem c6_unknown_reported_amended :
    (∀ (resolve : List String → List (String × ℚ)) (target : BaselineTarget)
       (featureId : String),
        baselineFeaturesGet featureId = none → webFeaturesDataGet featureId = none →
        isFeatureBaseline resolve target featureId = false) ∧
    (∀ (file : String) (line column : Nat) (feature message severity : String),
        (createResult file line column feature message severity none).baseline = "unknown") ∧
    (∀ (resolve : List String → List (String × ℚ))
       (results : List CompatibilityResult) (r : CompatibilityResult),
        r ∈ results →
        baselineFeaturesGet r.feature = none → webFeaturesDataGet r.feature = none →
        enhanceResult (configureSeverity DEFAULT_CONFIG r) ∈
            processFileResults resolve DEFAULT_CONFIG results ∧
          (enhanceResult (configureSeverity DEFAULT_CONFIG r)).severity = "warning" ∧
          (enhanceResult (configureSeverity DEFAULT_CONFIG r)).baseline = r.baseline) := by
  refine ⟨?_, ?_, ?_⟩
  · intro resolve target featureId h1 h2
    exact unknown_not_baseline resolve target h1 h2
  · intro file line column feature message severity
    rfl
  · intro resolve results r hr h1 h2
    refine ⟨?_, ?_, rfl⟩
    · exact mem_processFileResults.mpr
        ⟨r, hr, default_config_no_ignore r.feature,
         unknown_not_baseline resolve (targetOfConfig DEFAULT_CONFIG) h1 h2, rfl⟩
    · rw [enhanceResult_severity, configureSeverity_severity,
        default_config_severity r.feature]

/-- C6 witness: the amended statement at a concrete unknown-id occurrence:
it is judged non-baseline, created bare it carries baseline "unknown",
and it survives the default pipeline with severity "warning". -/
theorem c6_unknown_reported_witness :
    isFeatureBaseline emptyResolve ⟨"2024", none⟩ "some-unknown-feature" = false ∧
    (createResult "test.js" 1 0 "some-unknown-feature" "unknown feature usage" "warning"
      none).baseline = "unknown" ∧
    enhanceResult (configureSeverity DEFAULT_CONFIG unknownIdOcc) ∈
      processFileResults emptyResolve DEFAULT_CONFIG [unknownIdOcc] ∧
    (enhanceResult (configureSeverity DEFAULT_CONFIG unknownIdOcc)).severity = "warning" :=
  ⟨c6_unknown_reported_amended.1 emptyResolve ⟨"2024", none⟩ "some-unknown-feature"
     (by decide) (by decide),
   c6_unknown_reported_amended.2.1 "test.js" 1 0 "some-unknown-feature"
     "unknown feature usage" "warning",
   (c6_unknown_reported_amended.2.2 emptyResolve [unknownIdOcc] unknownIdOcc
     (by decide) (by decide) (by decide)).1,
   (c6_unknown_reported_amended.2.2 emptyResolve [unknownIdOcc] unknownIdOcc
     (by decide) (by decide) (by decide)).2.1⟩

/-- C7: effective severity resolves by precedence rules entry >
severity.features entry > global default (in particular, a feature with
rules severity "error" and features severity "info" resolves to "error"),
and an `'ignore'` at either override level removes the occurrence from
the aggregator's output entirely, regardless of baseline status. -/
theorem c7_severity_precedence :
    (∀ (config : BaselineConfig) (featureId s : String),
       ruleSeverityOf featureId config = some s → s ≠ "ignore" →
       getFeatureSeverity featureId config = s) ∧
    (∀ (config : BaselineConfig) (featureId s : String),
       ruleSeverityOf featureId config = none →
       featureSeverityOf featureId config = some s → s ≠ "ignore" →
       getFeatureSeverity featureId config = s) ∧
    (∀ (config : BaselineConfig) (featureId : String),
       ruleSeverityOf featureId config = none →
       featureSeverityOf featureId config = none →
       getFeatureSeverity featureId config = config.severityDefault) ∧
    getFeatureSeverity "css-has-selector" precedenceConfig = "error" ∧
    (∀ (config : BaselineConfig) (featureId : String),
       shouldIgnoreFeature featureId config = true ↔
         (ruleSeverityOf featureId config = some "ignore" ∨
          featureSeverityOf featureId config = some "ignore")) ∧
    (∀ (resolve : List String → List (String × ℚ)) (config : BaselineConfig)
       (results : List CompatibilityResult) (featureId : String),
        shouldIgnoreFeature featureId config = true →
        ∀ r ∈ processFileResults resolve config results, r.feature ≠ featureId) := by
  refine ⟨?_, ?_, ?_, by decide, ?_, ?_⟩
  · intro config featureId s h hne
    simp [getFeatureSeverity, h, hne]
  · intro config featureId s h1 h2 hne
    simp [getFeatureSeverity, featureMapSeverity, h1, h2, hne]
  · intro config featureId h1 h2
    simp [getFeatureSeverity, featureMapSeverity, h1, h2]
  · intro config featureId
    unfold shouldIgnoreFeature
    cases h1 : ruleSeverityOf featureId config <;>
      cases h2 : featureSeverityOf featureId config <;> simp [h1, h2]
  · intro resolve config results featureId hig r hr
    rw [mem_processFileResults] at hr
    obtain ⟨r0, _, hr0, _, rfl⟩ := hr
    intro hfeat
    have : r0.feature = featureId := by
      simpa [enhanceResult_feature, configureSeverity_feature] using hfeat
    rw [this, hig] at hr0
    exact absurd hr0 (by simp)

/-- C7 witness: the precedence instance of the spec (rules "error" beats
features "info"), and the ignore-removal at a concrete run: with
"clipboard-api" ruled `'ignore'`, the surviving diagnostic of a
two-occurrence unit is not a clipboard one. -/
theorem c7_severity_precedence_witness :
    getFeatureSeverity "css-has-selector" precedenceConfig = "error" ∧
    (enhanceResult (configureSeverity ignoreConfig unknownIdOcc)).feature ≠ "clipboard-api" :=
  ⟨c7_severity_precedence.1 precedenceConfig "css-has-selector" "error" (by decide) (by decide),
   c7_severity_precedence.2.2.2.2.2 emptyResolve ignoreConfig [clipboardOcc, unknownIdOcc]
     "clipboard-api" (by decide) _ (by decide)⟩

/-- C8 counterexample: a schema-valid user document with target "custom"
and no browserslist query list is accepted by the load-time checks (even
with an external validator that rejects every query), contradicting the
claimed fatal load error. -/
theorem c8_custom_counterexample :
    validateConfigSchema customDocNoQuery = true ∧
    customDocNoQuery.baseline = some { target := "custom" } ∧
    customDocNoQuery.baseline.bind (·.browserslist) = none ∧
    loadConfigChecked (fun _ => false) customDocNoQuery =
      Except.ok (mergeWithDefaults customDocNoQuery) := by
  decide

/-- C8 (amended): a custom-target configuration with a MISSING query list
passes schema validation and loads successfully (the schema only requires
the target to be one of the three enumerated values); a PRESENT query
list (even an empty one) is accepted exactly when the external
browserslist validation accepts it — there is no load-time rejection of
"custom without a non-empty query list" as such. -/
theorem c8_custom_target_amended :
    (∀ (browserslistOk : List String → Bool) (doc : ConfigDoc) (b : BaselineDoc),
       validateConfigSchema doc = true → doc.baseline = some b →
       b.target = "custom" → b.browserslist = none →
       loadConfigChecked browserslistOk doc = Except.ok (mergeWithDefaults doc)) ∧
    (∀ (browserslistOk : List String → Bool) (doc : ConfigDoc) (b : BaselineDoc)
       (bs : List String),
       validateConfigSchema doc = true → doc.baseline = some b →
       b.target = "custom" → b.browserslist = some bs →
       loadConfigChecked browserslistOk doc =
         (if browserslistOk bs then Except.ok (mergeWithDefaults doc)
          else Except.error "Invalid browserslist configuration")) := by
  constructor
  · intro browserslistOk doc b hval hb ht hbs
    simp [loadConfigChecked, hval, mergeWithDefaults, hb, ht, hbs]
  · intro browserslistOk doc b bs hval hb ht hbs
    simp [loadConfigChecked, hval, mergeWithDefaults, hb, ht, hbs]

/-- C8 witness: the amended statement at the concrete custom-target
document with no query list. -/
theorem c8_custom_target_amended_witness :
    loadConfigChecked (fun _ => false) customDocNoQuery =
      Except.ok (mergeWithDefaults customDocNoQuery) :=
  c8_custom_target_amended.1 (fun _ => false) customDocNoQuery { target := "custom" }
    (by decide) (by decide) (by decide) (by decide)

/-- C9: a parse failure yields an empty occurrence list for that unit (for
both parsers), and a failing unit in a batch contributes nothing while the
rest of the batch is processed unchanged. -/
theorem c9_fail_soft :
    (∀ (Ast : Type) (walk : Ast → List CompatibilityResult) (err : String),
       parseJavaScript Ast walk (Except.error err) = []) ∧
    (∀ (Ast : Type) (walk : Ast → List CompatibilityResult) (err : String),
       parseCSS Ast walk (Except.error err) = []) ∧
    (∀ (resolve : List String → List (String × ℚ)) (config : BaselineConfig)
       (units₁ units₂ : List (Except String (List CompatibilityResult))) (err : String),
        processBatch resolve config (units₁ ++ Except.error err :: units₂) =
          processBatch resolve config units₁ ++ processBatch resolve config units₂) := by
  refine ⟨fun _ _ _ => rfl, fun _ _ _ => rfl, ?_⟩
  intro resolve config units₁ units₂ err
  simp [processBatch]

/-- C10: a custom query resolving to zero pairs cannot make any feature
baseline: the coverage check returns false on an empty pair list (the
`0 / 0` ratio is handled, not a failure), and under a custom target any
feature not resolved to "widely" is judged not baseline. -/
theorem c10_empty_resolution_strict :
    (∀ (resolve : List String → List (String × ℚ)) (featureId : String)
       (query : List String), resolve query = [] →
        calculateBrowserslistCoverage resolve featureId query = false) ∧
    (∀ (resolve : List String → List (String × ℚ)) (featureId : String)
       (queryList : List String), resolve queryList = [] →
        catalogStatus featureId ≠ some "widely" →
        isFeatureBaseline resolve ⟨"custom", some queryList⟩ featureId = false) := by
  constructor
  · exact coverage_resolves_empty
  · intro resolve featureId queryList hres hst
    cases hd : resolvedBaselineData featureId with
    | none => simp [isFeatureBaseline, hd]
    | some d =>
      have hstat : ¬ d.status = "widely" := by
        intro hcontra
        exact hst (by simp [catalogStatus, hd, hcontra])
      rw [isFeatureBaseline, hd]
      simp only [hstat, if_false, Option.isSome_some, Bool.and_true, if_neg hstat]
      simpa using coverage_resolves_empty resolve featureId queryList hres

/-- C10 witness: the empty resolution at "css-has-selector": the coverage
check returns false and the custom-target judgement is not baseline. -/
theorem c10_empty_resolution_strict_witness :
    calculateBrowserslistCoverage emptyResolve "css-has-selector" ["q"] = false ∧
    isFeatureBaseline emptyResolve ⟨"custom", some ["q"]⟩ "css-has-selector" = false :=
  ⟨c10_empty_resolution_strict.1 emptyResolve "css-has-selector" ["q"] rfl,
   c10_empty_resolution_strict.2 emptyResolve "css-has-selector" ["q"] rfl (by decide)⟩

end Greenlight
